import Mathlib

/-!
# Verification of the AIUGC batch/post orchestration core

Shallow embedding of the repository's orchestration core (state machine,
topic deduplication, research validation, prompt assembly, video
submission/recovery, QA and auto-advancement), with theorems settling the
frozen claims about it.

Python `dict`s are modelled as structures or association lists, sets as
`Finset`/`List`, floats that are exact in the source (0.5/0.3/0.2 weights,
the 2.6 words-per-second divisor) as rationals, and raised exceptions as
`Except` errors.
-/

deriving instance DecidableEq for Except

set_option maxRecDepth 100000

namespace FlowForge

/-! ## app/core/states.py -/

/-- Batch state definitions (`BatchState` in `app/core/states.py`). -/
inductive BatchState where
  | S1_SETUP
  | S2_SEEDED
  | S4_SCRIPTED
  | S5_PROMPTS_BUILT
  | S6_QA
  | S7_PUBLISH_PLAN
  | S8_COMPLETE
deriving DecidableEq, Repr, Fintype

/-- `STATE_TRANSITIONS` dict: allowed target set per current state.
The Python `Set[BatchState]` values are modelled as lists; only
membership is ever used. -/
def STATE_TRANSITIONS : BatchState → List BatchState
  | .S1_SETUP => [.S2_SEEDED]
  | .S2_SEEDED => [.S4_SCRIPTED]
  | .S4_SCRIPTED => [.S5_PROMPTS_BUILT]
  | .S5_PROMPTS_BUILT => [.S6_QA]
  | .S6_QA => [.S7_PUBLISH_PLAN, .S4_SCRIPTED, .S5_PROMPTS_BUILT]
  | .S7_PUBLISH_PLAN => [.S8_COMPLETE]
  | .S8_COMPLETE => []

/-- The payload of a raised `StateTransitionError`: the `details` dict
carries the current state, target state, and allowed-set. -/
structure StateTransitionError where
  current_state : BatchState
  target_state : BatchState
  allowed_transitions : List BatchState
deriving DecidableEq, Repr

/-- `validate_state_transition`: raises `StateTransitionError` when the
target is not in the allowed set for the current state, returns `None`
(here `Unit`) otherwise. -/
def validate_state_transition (current_state target_state : BatchState) :
    Except StateTransitionError Unit :=
  let allowed_transitions := STATE_TRANSITIONS current_state
  if target_state ∈ allowed_transitions then
    Except.ok ()
  else
    Except.error ⟨current_state, target_state, allowed_transitions⟩

/-! ## Theorems for claim C1 -/

/-- C1: `validate_state_transition` succeeds iff the target is in the
allowed-set of the current state per the fixed transition table; in
particular `(S1_SETUP, S4_SCRIPTED)` fails, `(S6_QA, S4_SCRIPTED)`
succeeds, `(S8_COMPLETE, t)` fails for every `t`; and on failure it
raises a `StateTransitionError` carrying the current state, the target
state, and the allowed-set. -/
theorem C1_validate_state_transition_iff_table :
    (∀ c t : BatchState,
      validate_state_transition c t = Except.ok () ↔ t ∈ STATE_TRANSITIONS c)
    ∧ validate_state_transition .S1_SETUP .S4_SCRIPTED ≠ Except.ok ()
    ∧ validate_state_transition .S6_QA .S4_SCRIPTED = Except.ok ()
    ∧ (∀ t : BatchState, validate_state_transition .S8_COMPLETE t ≠ Except.ok ())
    ∧ (∀ c t : BatchState, t ∉ STATE_TRANSITIONS c →
        validate_state_transition c t =
          Except.error ⟨c, t, STATE_TRANSITIONS c⟩) := by
  refine ⟨by decide, by decide, by decide, by decide, ?_⟩
  intro c t h
  simp [validate_state_transition, h]

/-- Witness for C1: the failing pair `(S1_SETUP, S4_SCRIPTED)` produces the
error carrying current state, target state, and allowed-set `[S2_SEEDED]`. -/
theorem C1_validate_state_transition_iff_table_witness :
    BatchState.S4_SCRIPTED ∉ STATE_TRANSITIONS BatchState.S1_SETUP ∧
    validate_state_transition .S1_SETUP .S4_SCRIPTED =
      Except.error ⟨.S1_SETUP, .S4_SCRIPTED, [.S2_SEEDED]⟩ :=
  ⟨by decide,
    C1_validate_state_transition_iff_table.2.2.2.2 .S1_SETUP .S4_SCRIPTED (by decide)⟩

/-! ## app/features/topics/deduplication.py -/

/-- Python's `\w` word characters, restricted to ASCII: alphanumerics and
underscore (none of the claims depends on the wider Unicode classes). -/
def isWordChar (c : Char) : Bool := c.isAlphanum || c = '_'

/-- Split a character list at whitespace; consecutive separators produce
empty pieces, exactly like `String.split`. -/
def splitWhitespaceAux : List Char → List Char → List String
  | [], acc => [String.mk acc.reverse]
  | c :: rest, acc =>
    if c.isWhitespace then String.mk acc.reverse :: splitWhitespaceAux rest []
    else splitWhitespaceAux rest (c :: acc)

/-- `tokenize`: lowercase the text, replace every character matching
`[^\w\s]` by a space, split on whitespace, collect the words into a set.
Python's argumentless `split()` drops empty pieces, hence the filter. -/
def tokenize (text : String) : Finset String :=
  let lowered := text.data.map Char.toLower
  let depunct :=
    lowered.map (fun c => if isWordChar c || c.isWhitespace then c else ' ')
  ((splitWhitespaceAux depunct []).filter (fun w => w ≠ "")).toFinset

/-- `jaccard_similarity`: `|A ∩ B| / |A ∪ B|`, returning 0 when either set
is empty (and under the redundant `union == 0` guard of the source). -/
def jaccard_similarity (set1 set2 : Finset String) : ℚ :=
  if set1 = ∅ ∨ set2 = ∅ then 0
  else
    let intersection := (set1 ∩ set2).card
    let union := (set1 ∪ set2).card
    if union = 0 then 0
    else (intersection : ℚ) / (union : ℚ)

/-- `calculate_topic_similarity`: weighted Jaccard over title / rotation /
cta with fixed weights 0.5 / 0.3 / 0.2. The weights are modelled as exact
rationals; at the endpoints the claims use (0 and 1) the Python float
computation is exact as well. -/
def calculate_topic_similarity
    (title1 rotation1 cta1 title2 rotation2 cta2 : String) : ℚ :=
  let title_sim := jaccard_similarity (tokenize title1) (tokenize title2)
  let rotation_sim := jaccard_similarity (tokenize rotation1) (tokenize rotation2)
  let cta_sim := jaccard_similarity (tokenize cta1) (tokenize cta2)
  title_sim * 0.5 + rotation_sim * 0.3 + cta_sim * 0.2

theorem jaccard_similarity_comm (s1 s2 : Finset String) :
    jaccard_similarity s1 s2 = jaccard_similarity s2 s1 := by
  unfold jaccard_similarity
  rw [Finset.inter_comm, Finset.union_comm]
  exact if_congr or_comm rfl rfl

theorem jaccard_similarity_self {s : Finset String} (h : s ≠ ∅) :
    jaccard_similarity s s = 1 := by
  have hcard : s.card ≠ 0 := fun hc => h (Finset.card_eq_zero.mp hc)
  have hq : (s.card : ℚ) ≠ 0 := Nat.cast_ne_zero.mpr hcard
  simp [jaccard_similarity, h, Finset.inter_self, Finset.union_self, hcard,
    div_self hq]

theorem jaccard_similarity_zero_of_empty {s1 s2 : Finset String}
    (h : s1 = ∅ ∨ s2 = ∅) : jaccard_similarity s1 s2 = 0 := by
  simp only [jaccard_similarity]
  rw [if_pos h]

theorem jaccard_similarity_zero_of_disjoint {s1 s2 : Finset String}
    (h : s1 ∩ s2 = ∅) : jaccard_similarity s1 s2 = 0 := by
  unfold jaccard_similarity
  split
  · rfl
  · simp [h]

/-! ## Theorems for claim C7 -/

/-- C7 counterexample: a pair of topics with identical (empty) title,
rotation and cta scores 0, not 1.0 — the empty-token-set guard wins over
the "identical fields score 1.0" clause of the claim. -/
theorem C7_counterexample_identical_empty_topic :
    calculate_topic_similarity "" "" "" "" "" "" = 0 ∧
    calculate_topic_similarity "" "" "" "" "" "" ≠ 1 := by
  have hempty : tokenize "" = ∅ := by decide
  have hzero : calculate_topic_similarity "" "" "" "" "" "" = 0 := by
    unfold calculate_topic_similarity
    rw [jaccard_similarity_zero_of_empty (Or.inl hempty)]
    norm_num
  exact ⟨hzero, by rw [hzero]; norm_num⟩

/-- C7 (amended): the similarity is the 0.5/0.3/0.2-weighted Jaccard such
that a pair with identical title, rotation and cta scores 1.0 *provided
each field tokenizes to a nonempty token set*; a pair sharing zero tokens
in every field scores 0.0; similarity is symmetric; and an empty token set
on either side of a field yields similarity 0 for that field. -/
theorem C7_topic_similarity_amended :
    (∀ title rotation cta,
      tokenize title ≠ ∅ → tokenize rotation ≠ ∅ → tokenize cta ≠ ∅ →
      calculate_topic_similarity title rotation cta title rotation cta = 1)
    ∧ (∀ t1 r1 c1 t2 r2 c2,
        tokenize t1 ∩ tokenize t2 = ∅ → tokenize r1 ∩ tokenize r2 = ∅ →
        tokenize c1 ∩ tokenize c2 = ∅ →
        calculate_topic_similarity t1 r1 c1 t2 r2 c2 = 0)
    ∧ (∀ t1 r1 c1 t2 r2 c2,
        calculate_topic_similarity t1 r1 c1 t2 r2 c2 =
          calculate_topic_similarity t2 r2 c2 t1 r1 c1)
    ∧ (∀ s1 s2 : Finset String, s1 = ∅ ∨ s2 = ∅ →
        jaccard_similarity s1 s2 = 0) := by
  refine ⟨?_, ?_, ?_, fun s1 s2 h => jaccard_similarity_zero_of_empty h⟩
  · intro title rotation cta ht hr hc
    unfold calculate_topic_similarity
    rw [jaccard_similarity_self ht, jaccard_similarity_self hr,
      jaccard_similarity_self hc]
    norm_num
  · intro t1 r1 c1 t2 r2 c2 ht hr hc
    unfold calculate_topic_similarity
    rw [jaccard_similarity_zero_of_disjoint ht,
      jaccard_similarity_zero_of_disjoint hr,
      jaccard_similarity_zero_of_disjoint hc]
    norm_num
  · intro t1 r1 c1 t2 r2 c2
    unfold calculate_topic_similarity
    rw [jaccard_similarity_comm (tokenize t1), jaccard_similarity_comm (tokenize r1),
      jaccard_similarity_comm (tokenize c1)]

/-- Witness for C7 (amended): a concrete topic with nonempty token sets in
all three fields scores exactly 1.0 against an identical topic. -/
theorem C7_topic_similarity_amended_witness :
    tokenize "Recht auf Teilhabe" ≠ ∅ ∧
    tokenize "Kennst du das Hilfsmittelverzeichnis?" ≠ ∅ ∧
    tokenize "Jetzt informieren!" ≠ ∅ ∧
    calculate_topic_similarity
      "Recht auf Teilhabe" "Kennst du das Hilfsmittelverzeichnis?" "Jetzt informieren!"
      "Recht auf Teilhabe" "Kennst du das Hilfsmittelverzeichnis?" "Jetzt informieren!" = 1 :=
  ⟨by decide, by decide, by decide,
    C7_topic_similarity_amended.1 _ _ _ (by decide) (by decide) (by decide)⟩

/-! ## app/features/topics/agents.py — duration policy -/

/-- `ResearchAgentItem` (`app/features/topics/schemas.py`), restricted to
the fields the duration policy reads or writes; the pydantic length
bounds are checked elsewhere and play no role in `validate_duration`. -/
structure ResearchAgentItem where
  topic : String
  script : String
  source_summary : String
  estimated_duration_s : Int
  tone : String
  disclaimer : String
deriving DecidableEq, Repr

/-- `ResearchAgentItem.word_count`: `len(self.script.split())`. -/
def ResearchAgentItem.word_count (item : ResearchAgentItem) : Nat :=
  ((splitWhitespaceAux item.script.data []).filter (fun w => w ≠ "")).length

/-- The payload of a raised `ValidationError` (`app/core/errors.py`); the
claims only inspect the kind of error, so the `details` dict is dropped. -/
structure ValidationError where
  message : String
deriving DecidableEq, Repr

/-- `math.ceil(word_count / 2.6)`. Since `2.6 = 13/5` exactly, the ceiling
is `(5 * wc + 12) / 13` in natural-number division; the theorem for C5
proves this equals `⌈wc / 2.6⌉`. (For the word counts a script can have,
the float division of the source computes the same value.) -/
def duration_calculated (wc : Nat) : Nat := (5 * wc + 12) / 13

/-- `validate_duration`: reject a script over the 8-second ceiling (or
under the 7-second floor), then auto-correct a mis-reported
`estimated_duration_s` (the in-place mutation is modelled by returning
the updated item). -/
def validate_duration (item : ResearchAgentItem) :
    Except ValidationError ResearchAgentItem :=
  let calculated := duration_calculated item.word_count
  if 8 < calculated then Except.error ⟨"Script exceeds 8 seconds"⟩
  else if calculated < 7 then Except.error ⟨"Script under 7 seconds"⟩
  else if (calculated : Int) ≠ item.estimated_duration_s then
    Except.ok { item with estimated_duration_s := (calculated : Int) }
  else Except.ok item

/-! ## Theorems for claim C5 -/

/-- C5: the spoken duration is `⌈word_count / 2.6⌉` seconds (16 words give
7, 21 words give 9); a script whose computed duration exceeds the
8-second ceiling is rejected with `ValidationError`; an item whose
model-reported `estimated_duration_s` merely disagrees with an in-range
computed value is auto-corrected, not rejected. -/
theorem C5_duration_policy :
    (∀ wc : Nat, (duration_calculated wc : ℤ) = ⌈(wc : ℚ) / 2.6⌉)
    ∧ duration_calculated 16 = 7
    ∧ duration_calculated 21 = 9
    ∧ (∀ item : ResearchAgentItem, 8 < duration_calculated item.word_count →
        validate_duration item = Except.error ⟨"Script exceeds 8 seconds"⟩)
    ∧ (∀ item : ResearchAgentItem,
        7 ≤ duration_calculated item.word_count →
        duration_calculated item.word_count ≤ 8 →
        validate_duration item = Except.ok
          { item with
              estimated_duration_s := (duration_calculated item.word_count : Int) }) := by
  refine ⟨?_, by decide, by decide, ?_, ?_⟩
  · intro wc
    have h13 : (0 : ℚ) < 13 := by norm_num
    have hdm := Nat.div_add_mod (5 * wc + 12) 13
    have hm : (5 * wc + 12) % 13 < 13 := Nat.mod_lt _ (by norm_num)
    have hle : 13 * duration_calculated wc ≤ 5 * wc + 12 := by
      unfold duration_calculated; omega
    have hlt : 5 * wc + 12 < 13 * duration_calculated wc + 13 := by
      unfold duration_calculated; omega
    have hub : 5 * wc ≤ 13 * duration_calculated wc := by
      unfold duration_calculated; omega
    have hleq : (13 * duration_calculated wc : ℚ) ≤ 5 * wc + 12 := by
      exact_mod_cast hle
    have hubq : (5 * wc : ℚ) ≤ 13 * duration_calculated wc := by
      exact_mod_cast hub
    rw [show (2.6 : ℚ) = 13 / 5 by norm_num, eq_comm, Int.ceil_eq_iff]
    constructor
    · rw [div_div_eq_mul_div, lt_div_iff₀ h13]
      push_cast
      linarith
    · rw [div_div_eq_mul_div, div_le_iff₀ h13]
      push_cast
      linarith
  · intro item h
    simp only [validate_duration]
    rw [if_pos h]
  · intro item h7 h8
    simp only [validate_duration]
    split_ifs with h1 h2 h3
    · omega
    · omega
    · rfl
    · rw [not_not] at h3
      rw [h3]

/-- Witness for C5: a 21-word script computes to 9 seconds and is
rejected; a 16-word script with a mis-reported estimate of 5 computes to
7 seconds and is accepted with the estimate auto-corrected. -/
theorem C5_duration_policy_witness :
    (8 < duration_calculated
        (ResearchAgentItem.word_count
          ⟨"t", "a b c d e f g h i j k l m n o p q r s t u", "sum", 8, "tn", "dc"⟩) ∧
      validate_duration
          ⟨"t", "a b c d e f g h i j k l m n o p q r s t u", "sum", 8, "tn", "dc"⟩ =
        Except.error ⟨"Script exceeds 8 seconds"⟩)
    ∧ (7 ≤ duration_calculated
          (ResearchAgentItem.word_count
            ⟨"t", "a b c d e f g h i j k l m n o p", "sum", 5, "tn", "dc"⟩) ∧
        validate_duration ⟨"t", "a b c d e f g h i j k l m n o p", "sum", 5, "tn", "dc"⟩ =
          Except.ok
            { (⟨"t", "a b c d e f g h i j k l m n o p", "sum", 5, "tn", "dc"⟩ :
                ResearchAgentItem) with
                estimated_duration_s :=
                  (duration_calculated
                    (ResearchAgentItem.word_count
                      ⟨"t", "a b c d e f g h i j k l m n o p", "sum", 5, "tn", "dc"⟩) : Int) }) :=
  ⟨⟨by decide, C5_duration_policy.2.2.2.1 _ (by decide)⟩,
    ⟨by decide, C5_duration_policy.2.2.2.2 _ (by decide) (by decide)⟩⟩

/-! ## app/features/posts/prompt_builder.py

String helpers modelling the Python `str` operations on `List Char`
(`strip`/`rstrip`, `endswith`, `replace`), so that everything reduces in
the kernel. -/

/-- Python `str.lstrip()` on the character list. -/
def lstripList (l : List Char) : List Char := l.dropWhile Char.isWhitespace

/-- Python `str.rstrip()` on the character list. -/
def rstripList (l : List Char) : List Char :=
  (l.reverse.dropWhile Char.isWhitespace).reverse

/-- Python `str.strip()`. -/
def pyStrip (s : String) : String := String.mk (rstripList (lstripList s.data))

/-- Python `str.rstrip()`. -/
def pyRstrip (s : String) : String := String.mk (rstripList s.data)

/-- Python truthiness of an optional string (`None` and `""` are falsy). -/
def pyTruthy : Option String → Bool
  | none => false
  | some s => s ≠ ""

/-- One step-bounded pass of Python `str.replace(old, new)` (replace every
non-overlapping occurrence, left to right). The fuel is the length of the
haystack, which bounds the number of recursion steps since every step
consumes at least one character; the builder only calls this with a
nonempty pattern. -/
def replaceListAux (pat repl : List Char) : Nat → List Char → List Char
  | _, [] => []
  | 0, hay => hay
  | fuel + 1, c :: rest =>
    if pat ≠ [] ∧ pat.isPrefixOf (c :: rest) then
      repl ++ replaceListAux pat repl fuel ((c :: rest).drop pat.length)
    else
      c :: replaceListAux pat repl fuel rest

/-- Python `str.replace(old, new)`. -/
def pyReplace (s pat repl : String) : String :=
  String.mk (replaceListAux pat.data repl.data s.data.length s.data)

/-- The canonical closing-pause marker the builder reattaches. -/
def CLOSING_PAUSE_MARKER : String :=
  "(After delivering the dialogue, the character maintains a still, gentle smile with no further facial or mouth movements)"

/-- `suffix_variants` of `build_video_prompt_from_seed`: the canonical
marker and the variant with a space after the opening parenthesis. -/
def suffix_variants : List String :=
  [CLOSING_PAUSE_MARKER,
    "( After delivering the dialogue, the character maintains a still, gentle smile with no further facial or mouth movements)"]

/-- The trailing-marker normalization of `build_video_prompt_from_seed`:
drop the first matching suffix variant (then `rstrip`), mirroring the
`for suffix in suffix_variants: ... break` loop. -/
def strip_suffix_variants (s : String) : String :=
  match suffix_variants.find? (fun v => List.isSuffixOf v.data s.data) with
  | some v => pyRstrip (String.mk (s.data.take (s.data.length - v.data.length)))
  | none => s

/-- `AUDIO_DIALOGUE_DIRECTIVE` constant of the builder. -/
def AUDIO_DIALOGUE_DIRECTIVE : String :=
  "Audio: Recorded through modern smartphone mic — clear, front-facing voice with intimate presence and a soft, short living-room bloom (RT60 ≈ 0.3–0.4 s). Camera 20–30 cm from mouth, mic unobstructed. HVAC/appliances off; noise floor ≤ –55 dBFS with zero room-tone bed. After the final word, capture a dead-silent tail — no reverb, breaths, or background noise — for the closing pause. No music, one-take natural pacing."

/-- The `action` field default of `VideoPrompt`
(`app/features/posts/schemas.py`), into which the script line is
interpolated at `ENTER SCRIPT FROM POST HERE`. -/
def ACTION_TEMPLATE : String :=
  "Action: Sits in a wheelchair in the bedroom, hair still slightly damp, looking directly into camera with a neutral, friendly expression that turns to a gentle smile. Maintains steady head-and-shoulders orientation; uses small, natural hand gestures and subtle upper-body nods while speaking. Remains seated and centered for a single continuous take with no cuts or alternate angles and says: ENTER SCRIPT FROM POST HERE"

/-- `ACTION_TEMPLATE` with the placeholder removed: the placeholder is the
final segment of the template, so replacement appends the script line to
this prefix (proved below, not assumed). -/
def ACTION_TEMPLATE_PRE : String :=
  "Action: Sits in a wheelchair in the bedroom, hair still slightly damp, looking directly into camera with a neutral, friendly expression that turns to a gentle smile. Maintains steady head-and-shoulders orientation; uses small, natural hand gestures and subtle upper-body nods while speaking. Remains seated and centered for a single continuous take with no cuts or alternate angles and says: "

/-- `OPTIMIZED_PROMPT_TEMPLATE` up to its single `dialogue` interpolation
slot. -/
def OPTIMIZED_PROMPT_PRE : String :=
  "Subject & Look:\nA 38-year-old German woman with long, slightly damp light-brown hair with natural blonde highlights; hazel almond-shaped eyes with faint crow’s feet; friendly oval face with soft expression lines; warm light-medium skin with neutral undertones. She faces camera with a neutral, friendly expression that softens into a gentle smile.\n\nSetting:\nA modern, tidy bedroom with blush-pink walls and minimal décor. Vertical frame.\n\nCinematography:\nCamera shot: medium close-up, slightly high angle, centered; one continuous take, no cuts. Lens & DOF: smartphone front camera (~24 mm equiv.), deep DOF with subtle natural falloff. Camera motion: subtle handheld sway and micro-jitter consistent with selfie grip.\n\nLighting & Palette:\nKey: soft vanity light frontal; Fill: window daylight camera-right; Rim: gentle ambient wrap. Palette anchors: blush pink, soft white, warm oak, brushed nickel.\n\nAction (8 s):\n0–2 s: seated in a wheelchair, steady head-and-shoulders, direct eye contact, neutral expression.\n2–5 s: small natural hand gesture; slight upper-body nods.\n5–8 s: expression warms into a gentle smile; brief 0.5 s pause after speaking.\n\nDialogue:\n\""

/-- `OPTIMIZED_PROMPT_TEMPLATE` after the `dialogue` interpolation slot. -/
def OPTIMIZED_PROMPT_SUF : String :=
  "\"\n\nAudio:\nClean smartphone voice, intimate presence, zero room-tone bed; after the final word the space stays dead quiet with no reverb, breaths, or environmental sounds; no music; no background HVAC.\n\nConstraints — Avoid:\ntext overlays/subtitles, logos/branding, poor lighting, heavy compression, excessive shake, off-sync audio, changes to character identity, cuts or angle changes."

/-- `build_optimized_prompt`: strip the dialogue and interpolate it into
the single slot of the fixed template. -/
def build_optimized_prompt (dialogue : String) : String :=
  OPTIMIZED_PROMPT_PRE ++ pyStrip dialogue ++ OPTIMIZED_PROMPT_SUF

/-- The seed payload as the builder reads it: `seed_data.get("script")`
and `seed_data.get("dialog_script")`; no other key is consulted. -/
structure SeedData where
  script : Option String
  dialog_script : Option String
deriving DecidableEq, Repr

/-- The builder's output. The remaining entries of the assembled dict
(character, style, scene, …) are constants of the `VideoPrompt` schema,
independent of the seed, and are omitted; `action` carries the
interpolated script line. -/
structure VideoPromptDict where
  action : String
  audio_dialogue : String
  optimized_prompt : String
deriving DecidableEq, Repr

/-- `build_video_prompt_from_seed`: choose the dialogue (manually edited
`script` preferred over `dialog_script`, Python truthiness), fail when
neither is present, normalize the trailing marker, and interpolate. -/
def build_video_prompt_from_seed (seed_data : SeedData) :
    Except ValidationError VideoPromptDict :=
  let dialogue :=
    if pyTruthy seed_data.script then seed_data.script
    else seed_data.dialog_script
  match dialogue with
  | none =>
    Except.error
      ⟨"Missing dialogue in seed_data. Post must have dialog_script or script."⟩
  | some d =>
    if d = "" then
      Except.error
        ⟨"Missing dialogue in seed_data. Post must have dialog_script or script."⟩
    else
      let normalized_dialogue := strip_suffix_variants (pyStrip d)
      let script_line := normalized_dialogue ++ " " ++ CLOSING_PAUSE_MARKER
      let optimized_prompt := build_optimized_prompt normalized_dialogue
      let action_value :=
        pyReplace ACTION_TEMPLATE "ENTER SCRIPT FROM POST HERE" script_line
      Except.ok ⟨action_value, AUDIO_DIALOGUE_DIRECTIVE, optimized_prompt⟩

/-- Number of (possibly overlapping) occurrence positions of `needle` in
`hay`; for the marker, which is not self-overlapping, this agrees with
Python's `str.count`. -/
def countOccurrences (needle hay : List Char) : Nat :=
  (List.range (hay.length + 1)).countP (fun i => needle.isPrefixOf (hay.drop i))

/-- `countOccurrences` on strings. -/
def countOccurrencesStr (needle hay : String) : Nat :=
  countOccurrences needle.data hay.data

/-! ## Theorems for claim C6 -/

/-- C6 counterexample: a seed whose script contains the closing-pause
marker followed by more text (so the script does not *end* with the
marker) produces an action text in which the marker appears twice. -/
theorem C6_counterexample_marker_twice :
    (build_video_prompt_from_seed
        ⟨some (CLOSING_PAUSE_MARKER ++ " Hallo."), none⟩).toOption.map
      (fun p => countOccurrencesStr CLOSING_PAUSE_MARKER p.action) = some 2 := by
  decide

theorem isPrefixOf_self_char (l : List Char) : l.isPrefixOf l = true := by
  induction l with
  | nil => rfl
  | cons c t ih => simp [List.isPrefixOf, ih]

theorem drop_head?_eq (l : List Char) : ∀ i : Nat, (l.drop i).head? = l[i]? := by
  induction l with
  | nil => intro i; cases i <;> rfl
  | cons c t ih =>
    intro i
    cases i with
    | zero => simp
    | succ j => simpa using ih j

theorem head_of_isPrefixOf_cons {c : Char} {nt m : List Char}
    (h : (c :: nt).isPrefixOf m = true) : m.head? = some c := by
  cases m with
  | nil => simp [List.isPrefixOf] at h
  | cons b bs =>
    simp only [List.isPrefixOf, Bool.and_eq_true, beq_iff_eq] at h
    simp [h.1]

theorem countP_range_getElem (c : Char) (l : List Char) :
    (List.range (l.length + 1)).countP (fun i => decide (l[i]? = some c)) =
      l.countP (fun a => decide (a = c)) := by
  induction l with
  | nil => rfl
  | cons a t ih =>
    rw [show (a :: t).length + 1 = (t.length + 1) + 1 from rfl,
      List.range_succ_eq_map, List.countP_cons, List.countP_map]
    rw [List.countP_cons]
    have hcomp :
        (List.range (t.length + 1)).countP
            ((fun i => decide ((a :: t)[i]? = some c)) ∘ Nat.succ) =
          (List.range (t.length + 1)).countP (fun i => decide (t[i]? = some c)) := by
      apply List.countP_congr
      intro i _
      simp [Function.comp]
    rw [hcomp, ih]
    simp [Nat.add_comm]

theorem countOccurrences_le_paren (nt hay : List Char) :
    countOccurrences ('(' :: nt) hay ≤ hay.countP (fun a => decide (a = '(')) := by
  unfold countOccurrences
  rw [← countP_range_getElem]
  apply List.countP_mono_left
  intro i _ h
  have hh := head_of_isPrefixOf_cons h
  rw [← drop_head?_eq]
  simp [hh]

theorem countOccurrences_append_self (A needle : List Char) :
    1 ≤ countOccurrences needle (A ++ needle) := by
  unfold countOccurrences
  have hmem : A.length ∈ List.range ((A ++ needle).length + 1) := by
    rw [List.mem_range, List.length_append]
    omega
  have hp : needle.isPrefixOf ((A ++ needle).drop A.length) = true := by
    rw [List.drop_left]
    exact isPrefixOf_self_char needle
  exact List.countP_pos.mpr ⟨A.length, hmem, by simpa using hp⟩

/-- The closing-pause marker appears exactly once in
`ACTION_TEMPLATE_PRE ++ n ++ " " ++ marker` whenever the interpolated
dialogue `n` contains no opening parenthesis: the marker starts with `(`,
and `(` occurs exactly once in that action text. -/
theorem countOccurrences_marker_once (n : List Char)
    (hn : n.countP (fun a => decide (a = '(')) = 0) :
    countOccurrences CLOSING_PAUSE_MARKER.data
      (ACTION_TEMPLATE_PRE.data ++ (n ++ (' ' :: CLOSING_PAUSE_MARKER.data))) = 1 := by
  have hmarker : CLOSING_PAUSE_MARKER.data = '(' :: CLOSING_PAUSE_MARKER.data.tail := by
    decide
  have hupper :
      countOccurrences CLOSING_PAUSE_MARKER.data
          (ACTION_TEMPLATE_PRE.data ++ (n ++ (' ' :: CLOSING_PAUSE_MARKER.data))) ≤
        (ACTION_TEMPLATE_PRE.data ++
            (n ++ (' ' :: CLOSING_PAUSE_MARKER.data))).countP
          (fun a => decide (a = '(')) := by
    conv_lhs => rw [hmarker]
    exact countOccurrences_le_paren _ _
  have hpre : ACTION_TEMPLATE_PRE.data.countP (fun a => decide (a = '(')) = 0 := by
    decide
  have hmk : (' ' :: CLOSING_PAUSE_MARKER.data).countP (fun a => decide (a = '(')) = 1 := by
    decide
  have hcount :
      (ACTION_TEMPLATE_PRE.data ++
          (n ++ (' ' :: CLOSING_PAUSE_MARKER.data))).countP
        (fun a => decide (a = '(')) = 1 := by
    rw [List.countP_append, List.countP_append, hpre, hn, hmk]
  have hassoc :
      ACTION_TEMPLATE_PRE.data ++ (n ++ (' ' :: CLOSING_PAUSE_MARKER.data)) =
        (ACTION_TEMPLATE_PRE.data ++ n ++ [' ']) ++ CLOSING_PAUSE_MARKER.data := by
    simp
  have hlower :
      1 ≤ countOccurrences CLOSING_PAUSE_MARKER.data
          (ACTION_TEMPLATE_PRE.data ++ (n ++ (' ' :: CLOSING_PAUSE_MARKER.data))) := by
    rw [hassoc]
    exact countOccurrences_append_self _ _
  omega

theorem replaceListAux_nil (pat repl : List Char) (fuel : Nat) :
    replaceListAux pat repl fuel [] = [] := by
  cases fuel <;> rfl

theorem replaceListAux_concat (pat repl : List Char) (hpat : pat ≠ []) :
    ∀ pre : List Char,
      (∀ i, i < pre.length → pat.isPrefixOf ((pre ++ pat).drop i) = false) →
      replaceListAux pat repl (pre ++ pat).length (pre ++ pat) = pre ++ repl := by
  intro pre
  induction pre with
  | nil =>
    intro _
    cases hp : pat with
    | nil => exact absurd hp hpat
    | cons c cs =>
      show replaceListAux (c :: cs) repl (cs.length + 1) (c :: cs) = repl
      rw [replaceListAux]
      rw [if_pos ⟨by simp, isPrefixOf_self_char (c :: cs)⟩]
      rw [show (c :: cs).drop (c :: cs).length = [] from List.drop_length _]
      rw [replaceListAux_nil]
      simp
  | cons c pre' ih =>
    intro hocc
    have h0 : pat.isPrefixOf (c :: (pre' ++ pat)) = false := by
      have := hocc 0 (by simp)
      simpa using this
    show replaceListAux pat repl ((pre' ++ pat).length + 1) (c :: (pre' ++ pat)) =
      c :: (pre' ++ repl)
    rw [replaceListAux]
    rw [if_neg (by simp [h0])]
    have := ih (fun i hi => by
      have h := hocc (i + 1) (by simpa using Nat.succ_lt_succ hi)
      simpa using h)
    rw [this]

/-- Replacing the placeholder in the action template appends the script
line to the fixed prefix: the placeholder occurs exactly at the end of
the template. -/
theorem pyReplace_action_template (s : String) :
    pyReplace ACTION_TEMPLATE "ENTER SCRIPT FROM POST HERE" s =
      String.mk (ACTION_TEMPLATE_PRE.data ++ s.data) := by
  have hsplit :
      ACTION_TEMPLATE.data =
        ACTION_TEMPLATE_PRE.data ++ ("ENTER SCRIPT FROM POST HERE").data := by
    decide
  unfold pyReplace
  rw [hsplit]
  rw [replaceListAux_concat _ _ (by decide) _ (by decide)]

/-- Reduction of the builder on a truthy `script` field. -/
theorem build_video_prompt_from_seed_some (d : String) (ds : Option String)
    (hd : d ≠ "") :
    build_video_prompt_from_seed ⟨some d, ds⟩ =
      Except.ok
        ⟨pyReplace ACTION_TEMPLATE "ENTER SCRIPT FROM POST HERE"
            (strip_suffix_variants (pyStrip d) ++ " " ++ CLOSING_PAUSE_MARKER),
          AUDIO_DIALOGUE_DIRECTIVE,
          build_optimized_prompt (strip_suffix_variants (pyStrip d))⟩ := by
  simp [build_video_prompt_from_seed, pyTruthy, hd]

/-- C6 (amended): `build_video_prompt_from_seed` is a pure function of the
seed (identical inputs give identical output); it fails with
`ValidationError` when the seed has neither a (truthy) `script` nor a
`dialog_script`; and the canonical closing-pause marker appears exactly
once in the assembled action text — whether or not the input script
already ended with the marker — *provided* the normalized dialogue
contains no opening parenthesis of its own (a script carrying the marker
in its interior yields two occurrences, see the counterexample). -/
theorem C6_prompt_builder_amended :
    (∀ s : SeedData, build_video_prompt_from_seed s = build_video_prompt_from_seed s)
    ∧ (∀ s : SeedData, pyTruthy s.script = false → pyTruthy s.dialog_script = false →
        build_video_prompt_from_seed s =
          Except.error
            ⟨"Missing dialogue in seed_data. Post must have dialog_script or script."⟩)
    ∧ (∀ (d : String) (ds : Option String), d ≠ "" →
        (strip_suffix_variants (pyStrip d)).data.countP (fun a => decide (a = '(')) = 0 →
        (build_video_prompt_from_seed ⟨some d, ds⟩).toOption.map
          (fun p => countOccurrencesStr CLOSING_PAUSE_MARKER p.action) = some 1) := by
  refine ⟨fun _ => rfl, ?_, ?_⟩
  · intro s h1 h2
    obtain ⟨sc, dsc⟩ := s
    simp only [build_video_prompt_from_seed, h1] at *
    cases dsc with
    | none => rfl
    | some x =>
      simp only [pyTruthy, decide_eq_false_iff_not, not_not] at h2
      simp [h2]
  · intro d ds hd hn
    rw [build_video_prompt_from_seed_some d ds hd]
    have hdata :
        (strip_suffix_variants (pyStrip d) ++ " " ++ CLOSING_PAUSE_MARKER).data =
          (strip_suffix_variants (pyStrip d)).data ++
            (' ' :: CLOSING_PAUSE_MARKER.data) := by
      simp [String.data_append]
    rw [pyReplace_action_template, hdata]
    exact congrArg some (countOccurrences_marker_once _ hn)

/-- Witness for C6 (amended): both for a plain script and for a script
that already ends with the closing-pause marker, the assembled action
text contains the marker exactly once; and a seed with neither field
fails. -/
theorem C6_prompt_builder_amended_witness :
    ((strip_suffix_variants (pyStrip "Kennst du das Hilfsmittelverzeichnis?")).data.countP
        (fun a => decide (a = '(')) = 0 ∧
      (build_video_prompt_from_seed
          ⟨some "Kennst du das Hilfsmittelverzeichnis?", none⟩).toOption.map
        (fun p => countOccurrencesStr CLOSING_PAUSE_MARKER p.action) = some 1)
    ∧ ((strip_suffix_variants
          (pyStrip ("Kennst du das Hilfsmittelverzeichnis? " ++
            CLOSING_PAUSE_MARKER))).data.countP (fun a => decide (a = '(')) = 0 ∧
        (build_video_prompt_from_seed
            ⟨some ("Kennst du das Hilfsmittelverzeichnis? " ++ CLOSING_PAUSE_MARKER),
              none⟩).toOption.map
          (fun p => countOccurrencesStr CLOSING_PAUSE_MARKER p.action) = some 1)
    ∧ build_video_prompt_from_seed ⟨some "", none⟩ =
        Except.error
          ⟨"Missing dialogue in seed_data. Post must have dialog_script or script."⟩ :=
  ⟨⟨by decide, C6_prompt_builder_amended.2.2 _ none (by decide) (by decide)⟩,
    ⟨by decide, C6_prompt_builder_amended.2.2 _ none (by decide) (by decide)⟩,
    C6_prompt_builder_amended.2.1 ⟨some "", none⟩ (by decide) (by decide)⟩

/-! ## app/features/videos/handlers.py — submission persistence and the
recovery log

External effects are passed in as values: the provider submission result,
the primary-store update outcome, and the wall clock. The append-only
recovery log file is the `List RecoveryRecord` threaded through. -/

/-- One line of the append-only recovery log (`_write_recovery_record`). -/
structure RecoveryRecord where
  timestamp : String
  post_id : String
  operation_id : String
  provider : String
  correlation_id : String
  status : String
  message : String
deriving DecidableEq, Repr

/-- `_write_recovery_record`: append the record for a paid operation whose
database update failed. -/
def _write_recovery_record (ts post_id operation_id provider correlation_id : String)
    (log : List RecoveryRecord) : List RecoveryRecord :=
  log ++
    [⟨ts, post_id, operation_id, provider, correlation_id, "db_update_failed",
      "Video submitted to provider but database update failed. Video is processing and can be recovered."⟩]

/-- The provider's answer to a submit call. -/
structure SubmissionResult where
  operation_id : String
  status : String
deriving DecidableEq, Repr

/-- The post row as `generate_video` reads it. -/
structure PostRow3 where
  id : String
  video_prompt_json : Option String
deriving DecidableEq, Repr

/-- The error outcomes of `generate_video`. -/
inductive GenerateVideoError where
  | not_found
  | validation_error (msg : String)
  | provider_error (msg : String)
  | db_error (msg : String)
deriving DecidableEq, Repr

/-- `generate_video` (single-post endpoint), from the post fetch to the
response: fail when the post is missing or has no `video_prompt_json`;
propagate a provider failure; on a successful submission followed by a
failed primary-store update, append a recovery record and re-raise the
store error. -/
def generate_video (post : Option PostRow3) (provider : String)
    (submit : Except String SubmissionResult)
    (db_update : Except String Unit) (ts : String)
    (log : List RecoveryRecord) :
    List RecoveryRecord × Except GenerateVideoError SubmissionResult :=
  match post with
  | none => (log, Except.error GenerateVideoError.not_found)
  | some p =>
    match p.video_prompt_json with
    | none =>
      (log, Except.error
        (GenerateVideoError.validation_error
          "Post missing video_prompt_json. Run build-prompt first."))
    | some _ =>
      match submit with
      | Except.error e => (log, Except.error (GenerateVideoError.provider_error e))
      | Except.ok result =>
        match db_update with
        | Except.ok _ => (log, Except.ok result)
        | Except.error e =>
          (_write_recovery_record ts p.id result.operation_id provider
              ("gen_video_" ++ p.id) log,
            Except.error (GenerateVideoError.db_error e))

/-! ## Theorems for claim C3 -/

/-- C3: when the provider submission succeeds and the primary-store update
fails, `generate_video` appends to the recovery log exactly one record
carrying the operation id, post id, provider, correlation id and status
`db_update_failed`, and re-raises the store error instead of reporting
success. -/
theorem C3_recovery_record_on_db_failure :
    ∀ (p : PostRow3) (j provider ts e : String) (result : SubmissionResult)
      (log : List RecoveryRecord),
      p.video_prompt_json = some j →
      generate_video (some p) provider (Except.ok result) (Except.error e) ts log =
        (log ++
            [⟨ts, p.id, result.operation_id, provider, "gen_video_" ++ p.id,
              "db_update_failed",
              "Video submitted to provider but database update failed. Video is processing and can be recovered."⟩],
          Except.error (GenerateVideoError.db_error e)) := by
  intro p j provider ts e result log hp
  simp [generate_video, hp, _write_recovery_record]

/-- Witness for C3: a concrete failed store update appends the recovery
record for operation `video_op_77` and re-raises. -/
theorem C3_recovery_record_on_db_failure_witness :
    (PostRow3.video_prompt_json ⟨"post-9", some "prompt"⟩ = some "prompt") ∧
    generate_video (some ⟨"post-9", some "prompt"⟩) "sora_2"
        (Except.ok ⟨"video_op_77", "queued"⟩) (Except.error "connection reset")
        "2026-10-12T00:00:00" [] =
      ([⟨"2026-10-12T00:00:00", "post-9", "video_op_77", "sora_2",
          "gen_video_post-9", "db_update_failed",
          "Video submitted to provider but database update failed. Video is processing and can be recovered."⟩],
        Except.error (GenerateVideoError.db_error "connection reset")) :=
  ⟨rfl,
    C3_recovery_record_on_db_failure ⟨"post-9", some "prompt"⟩ "prompt" "sora_2"
      "2026-10-12T00:00:00" "connection reset" ⟨"video_op_77", "queued"⟩ [] rfl⟩

/-! ## app/features/qa/handlers.py -/

/-- The post row as the QA handlers read it. -/
structure QAPost where
  id : String
  video_status : String
  video_url : Option String
  qa_pass : Option Bool
  qa_notes : Option String
deriving DecidableEq, Repr

/-- QA handler errors. -/
inductive QAError where
  | not_found
  | validation_error (msg : String)
deriving DecidableEq, Repr

/-- `approve_qa`: update `qa_pass` and `qa_notes` of an existing post.
The handler performs no check of `video_status`; `request.notes or ""`
is modelled by `Option.getD`. -/
def approve_qa (post : Option QAPost) (approved : Bool) (notes : Option String) :
    Except QAError QAPost :=
  match post with
  | none => Except.error QAError.not_found
  | some p =>
    Except.ok { p with qa_pass := some approved, qa_notes := some (notes.getD "") }

/-- The entry gate of `run_auto_qa_checks` (automated QA): requires a
completed video and a (truthy) video URL before running the checks. -/
def run_auto_qa_checks_gate (post : Option QAPost) : Except QAError Unit :=
  match post with
  | none => Except.error QAError.not_found
  | some p =>
    if p.video_status ≠ "completed" then
      Except.error
        (QAError.validation_error "Video generation not complete. Cannot run QA checks.")
    else if pyTruthy p.video_url then Except.ok ()
    else Except.error (QAError.validation_error "Video URL missing. Cannot run QA checks.")

/-! ## Theorems for claim C9 -/

/-- C9 counterexample: approving QA on a post whose video is still
`pending` sets `qa_pass := true` — the approval handler never consults
`video_status`. -/
theorem C9_counterexample_qa_pass_without_completed_video :
    approve_qa (some ⟨"post-1", "pending", none, none, none⟩) true none =
      Except.ok ⟨"post-1", "pending", none, some true, some ""⟩ := rfl

/-- C9 (amended): `approve_qa` sets `qa_pass` to the requested approval
value for any existing post regardless of `video_status`; the
`video_status == "completed"` gate exists only on the automated-check
endpoint `run_auto_qa_checks`, which raises `ValidationError` for a
non-completed video. -/
theorem C9_qa_approval_amended :
    (∀ (p : QAPost) (approved : Bool) (notes : Option String),
      approve_qa (some p) approved notes =
        Except.ok { p with qa_pass := some approved, qa_notes := some (notes.getD "") })
    ∧ (∀ p : QAPost, p.video_status ≠ "completed" →
        run_auto_qa_checks_gate (some p) =
          Except.error
            (QAError.validation_error
              "Video generation not complete. Cannot run QA checks.")) := by
  refine ⟨fun p approved notes => rfl, ?_⟩
  intro p h
  simp [run_auto_qa_checks_gate, h]

/-- Witness for C9 (amended): approval on a pending-video post records the
decision, and the auto-check endpoint rejects the same post. -/
theorem C9_qa_approval_amended_witness :
    approve_qa (some ⟨"post-2", "processing", none, none, none⟩) false (some "blurry") =
      Except.ok ⟨"post-2", "processing", none, some false, some "blurry"⟩ ∧
    (QAPost.video_status ⟨"post-2", "processing", none, none, none⟩ ≠ "completed") ∧
    run_auto_qa_checks_gate (some ⟨"post-2", "processing", none, none, none⟩) =
      Except.error
        (QAError.validation_error "Video generation not complete. Cannot run QA checks.") :=
  ⟨C9_qa_approval_amended.1 _ false (some "blurry"), by decide,
    C9_qa_approval_amended.2 _ (by decide)⟩

/-! ## workers/video_poller.py

The poller's external calls (status poll, asset download, CDN upload) are
passed in as values; raised exceptions are `Except.error` with the error
message. JSON metadata dicts are modelled as association lists of string
fields where later bindings override earlier ones, matching the
`{**existing, ...}` merges of the source. -/

/-- The post row as the poller reads and writes it. -/
structure VideoPost where
  id : String
  batch_id : String
  video_operation_id : Option String
  video_provider : Option String
  video_status : String
  video_url : Option String
  video_metadata : List (String × String)
deriving DecidableEq, Repr

/-- The provider's poll answer (`sora_client.check_video_status`); `raw`
stands for the full provider payload that gets stored back under
`provider_metadata`. -/
structure SoraStatusResult where
  status : String
  progress : String
  raw : String
deriving DecidableEq, Repr

/-- The CDN upload answer (`imagekit_client.upload_video`), with the
fields the poller persists (stringly, as they land in the JSON dict). -/
structure UploadResult where
  url : String
  file_id : String
  file_path : String
  thumbnail_url : String
  size_bytes : String
deriving DecidableEq, Repr

/-- `_store_completed_video` (sora path: bytes upload): mark completed,
set the CDN url, and *merge* the new fields over the existing metadata. -/
def _store_completed_video (post : VideoPost) (provider : String)
    (upload : UploadResult) (provider_metadata : String) : VideoPost :=
  { post with
      video_status := "completed"
      video_url := some upload.url
      video_metadata :=
        post.video_metadata ++
          [("imagekit_file_id", upload.file_id), ("size_bytes", upload.size_bytes),
            ("provider", provider), ("file_path", upload.file_path),
            ("thumbnail_url", upload.thumbnail_url),
            ("provider_metadata", provider_metadata), ("upload_method", "bytes")] }

/-- `_handle_sora_video`: on `completed`, download the asset and upload it
to the CDN (either step may raise); on `failed`/`cancelled` raise a
`ValueError`; otherwise record a lightweight still-processing update that
merges over the existing metadata. -/
def _handle_sora_video (post : VideoPost) (operation_id : String)
    (status_result : SoraStatusResult) (download : Except String Unit)
    (upload : Except String UploadResult) : Except String VideoPost :=
  let provider := post.video_provider.getD "sora_2"
  if status_result.status = "completed" then do
    let _ ← download
    let up ← upload
    pure (_store_completed_video post provider up status_result.raw)
  else if status_result.status = "failed" ∨ status_result.status = "cancelled" then
    Except.error ("Sora video failed with status " ++ status_result.status)
  else
    pure
      { post with
          video_status :=
            if status_result.status = "in_progress" ∨ status_result.status = "processing"
            then "processing" else "submitted"
          video_metadata :=
            post.video_metadata ++
              [("provider", provider), ("progress", status_result.progress),
                ("provider_status", status_result.status)] }

/-- `process_video_operation` (sora providers; the veo branch wraps
`_handle_veo_video` in the same try/except): any exception from the
handler marks the post failed and *replaces* `video_metadata` with the
error record. Posts with missing operation data or an unsupported
provider are skipped. -/
def process_video_operation (post : VideoPost)
    (status_result : SoraStatusResult) (download : Except String Unit)
    (upload : Except String UploadResult) : VideoPost :=
  match post.video_operation_id, post.video_provider with
  | some operation_id, some provider =>
    if provider = "sora_2" ∨ provider = "sora_2_pro" then
      match _handle_sora_video post operation_id status_result download upload with
      | Except.ok post' => post'
      | Except.error e =>
        { post with
            video_status := "failed"
            video_metadata :=
              [("error", e), ("provider", provider), ("operation_id", operation_id)] }
    else post
  | _, _ => post

/-! ## Theorems for claim C10 -/

/-- C10: every exception in the sora processing path — a failed download,
a failed CDN upload, or a terminal provider failure — marks the post
`failed`, attaches the error, and replaces (rather than merges) the
existing `video_metadata` with the three-field error record. -/
theorem C10_poller_exception_path :
    (∀ (post : VideoPost) (operation_id provider e : String)
      (st : SoraStatusResult) (dl : Except String Unit)
      (ul : Except String UploadResult),
      post.video_operation_id = some operation_id →
      post.video_provider = some provider →
      (provider = "sora_2" ∨ provider = "sora_2_pro") →
      _handle_sora_video post operation_id st dl ul = Except.error e →
      process_video_operation post st dl ul =
        { post with
            video_status := "failed"
            video_metadata :=
              [("error", e), ("provider", provider), ("operation_id", operation_id)] })
    ∧ (∀ (post : VideoPost) (operation_id e : String) (st : SoraStatusResult)
        (ul : Except String UploadResult), st.status = "completed" →
        _handle_sora_video post operation_id st (Except.error e) ul = Except.error e)
    ∧ (∀ (post : VideoPost) (operation_id e : String) (st : SoraStatusResult),
        st.status = "completed" →
        _handle_sora_video post operation_id st (Except.ok ()) (Except.error e) =
          Except.error e)
    ∧ (∀ (post : VideoPost) (operation_id : String) (st : SoraStatusResult)
        (dl : Except String Unit) (ul : Except String UploadResult),
        st.status = "failed" ∨ st.status = "cancelled" →
        _handle_sora_video post operation_id st dl ul =
          Except.error ("Sora video failed with status " ++ st.status)) := by
  refine ⟨?_, ?_, ?_, ?_⟩
  · intro post operation_id provider e st dl ul hop hprov hsora hfail
    simp [process_video_operation, hop, hprov, hsora, hfail]
  · intro post operation_id e st ul hst
    simp only [_handle_sora_video, hst]
    rfl
  · intro post operation_id e st hst
    simp only [_handle_sora_video, hst]
    rfl
  · intro post operation_id st dl ul hst
    have hne : st.status ≠ "completed" := by
      rcases hst with h | h <;> simp [h]
    simp [_handle_sora_video, hne, hst]

/-- Witness for C10: a post in `processing` with prior metadata, whose
download fails, ends up `failed` with exactly the three-field error
metadata — the old metadata entry is gone. -/
theorem C10_poller_exception_path_witness :
    (VideoPost.video_operation_id
        ⟨"p1", "b1", some "op1", some "sora_2", "processing",
          none, [("requested_size", "720x1280")]⟩ = some "op1") ∧
    _handle_sora_video
        ⟨"p1", "b1", some "op1", some "sora_2", "processing",
          none, [("requested_size", "720x1280")]⟩ "op1"
        ⟨"completed", "100", "payload"⟩ (Except.error "download timed out")
        (Except.ok ⟨"u", "f", "fp", "t", "9"⟩) =
      Except.error "download timed out" ∧
    process_video_operation
        ⟨"p1", "b1", some "op1", some "sora_2", "processing",
          none, [("requested_size", "720x1280")]⟩
        ⟨"completed", "100", "payload"⟩ (Except.error "download timed out")
        (Except.ok ⟨"u", "f", "fp", "t", "9"⟩) =
      ⟨"p1", "b1", some "op1", some "sora_2", "failed", none,
        [("error", "download timed out"), ("provider", "sora_2"),
          ("operation_id", "op1")]⟩ :=
  ⟨rfl,
    C10_poller_exception_path.2.1 _ "op1" "download timed out"
      ⟨"completed", "100", "payload"⟩ _ rfl,
    C10_poller_exception_path.1 _ "op1" "sora_2" "download timed out"
      ⟨"completed", "100", "payload"⟩ _ _ rfl rfl (Or.inl rfl)
      (C10_poller_exception_path.2.1 _ "op1" "download timed out"
        ⟨"completed", "100", "payload"⟩ _ rfl)⟩

/-! ## Batch-state mutation sites

Every code site that writes the `state` field of a batch, instrumented
with a trace recording the resulting state, whether a write was issued,
and whether `validate_state_transition` was invoked on the way. The batch
is assumed found (the not-found early returns issue no write). -/

/-- Observable effect of one state-mutation site. -/
structure StateWriteTrace where
  finalState : BatchState
  wroteState : Bool
  gateCalled : Bool
deriving DecidableEq, Repr

/-- `update_batch_state` (`app/features/batches/queries.py`): the only
mutation path that funnels through `validate_state_transition`; raises
`StateTransitionError` without writing when the transition is illegal. -/
def update_batch_state (current target : BatchState) :
    Except StateTransitionError StateWriteTrace :=
  match validate_state_transition current target with
  | Except.error e => Except.error e
  | Except.ok _ => Except.ok ⟨target, true, true⟩

/-- `_maybe_transition_batch_to_prompts_built`
(`app/features/posts/handlers.py`): auto-advance to `S5_PROMPTS_BUILT`
once every post of the batch has a (truthy) `video_prompt_json`; writes
the state directly, guarded by explicit pre-state checks, without calling
`validate_state_transition`. `posts` holds each post's prompt presence. -/
def _maybe_transition_batch_to_prompts_built (state : BatchState)
    (posts : List Bool) : StateWriteTrace :=
  if state ∉ [BatchState.S4_SCRIPTED, BatchState.S5_PROMPTS_BUILT] then
    ⟨state, false, false⟩
  else if posts = [] then ⟨state, false, false⟩
  else if posts.countP (fun b => b) ≠ posts.length then ⟨state, false, false⟩
  else if state = BatchState.S5_PROMPTS_BUILT then ⟨state, false, false⟩
  else ⟨BatchState.S5_PROMPTS_BUILT, true, false⟩

/-- `_check_and_transition_batch_to_qa` (`workers/video_poller.py`):
advance to `S6_QA` when every post's video is completed; a direct state
write guarded by the `S5_PROMPTS_BUILT` pre-state check, no gate call.
`posts` holds each post's `video_status`. -/
def _check_and_transition_batch_to_qa (state : BatchState)
    (posts : List String) : StateWriteTrace :=
  if state ≠ BatchState.S5_PROMPTS_BUILT then ⟨state, false, false⟩
  else if posts = [] then ⟨state, false, false⟩
  else if posts.countP (fun s => decide (s = "completed")) = posts.length then
    ⟨BatchState.S6_QA, true, false⟩
  else ⟨state, false, false⟩

/-- `confirm_publish` (`app/features/publish/handlers.py`), state part:
require `S7_PUBLISH_PLAN` and every post scheduled, then write
`S8_COMPLETE` directly — again without calling the gate. `scheduled`
holds each post's `scheduled_at` presence. -/
def confirm_publish (state : BatchState) (scheduled : List Bool) : StateWriteTrace :=
  if state ≠ BatchState.S7_PUBLISH_PLAN then ⟨state, false, false⟩
  else if (scheduled.filter (fun b => !b)).length ≠ 0 then ⟨state, false, false⟩
  else ⟨BatchState.S8_COMPLETE, true, false⟩

/-! ## Theorems for claim C8 -/

/-- C8: the all-prompts-built auto-advance is idempotent — for a batch
already in `S5_PROMPTS_BUILT` the repeated check issues no state write,
leaves the state unchanged, and (being total, with every branch an early
return) raises nothing. -/
theorem C8_prompts_built_check_idempotent :
    ∀ posts : List Bool,
      _maybe_transition_batch_to_prompts_built BatchState.S5_PROMPTS_BUILT posts =
        ⟨BatchState.S5_PROMPTS_BUILT, false, false⟩ := by
  intro posts
  simp [_maybe_transition_batch_to_prompts_built]


/-! ## Theorems for claim C2 -/

/-- C2 counterexample: the poller's QA auto-advance performs a state write
(`S5_PROMPTS_BUILT → S6_QA`) with `validate_state_transition` never
invoked — the claim that every state mutation passes through the single
gate is false of the code. -/
theorem C2_counterexample_direct_write_without_gate :
    _check_and_transition_batch_to_qa BatchState.S5_PROMPTS_BUILT ["completed"] =
      ⟨BatchState.S6_QA, true, false⟩ := by decide

/-- C2 (amended): every state change still lands in the allowed-set of
the previous state — `update_batch_state` funnels through
`validate_state_transition`, while the prompts-built auto-advance, the
poller's QA advance and the publish completion write the state directly,
guarded by explicit pre-state checks instead of the gate (which they
never call). -/
theorem C2_state_writes_amended :
    (∀ (c t : BatchState) (tr : StateWriteTrace),
      update_batch_state c t = Except.ok tr →
      tr.gateCalled = true ∧ tr.finalState ∈ STATE_TRANSITIONS c)
    ∧ (∀ (state : BatchState) (posts : List Bool),
        (_maybe_transition_batch_to_prompts_built state posts).wroteState = true →
        (_maybe_transition_batch_to_prompts_built state posts).finalState ∈
          STATE_TRANSITIONS state)
    ∧ (∀ (state : BatchState) (posts : List String),
        (_check_and_transition_batch_to_qa state posts).wroteState = true →
        (_check_and_transition_batch_to_qa state posts).finalState ∈
          STATE_TRANSITIONS state)
    ∧ (∀ (state : BatchState) (scheduled : List Bool),
        (confirm_publish state scheduled).wroteState = true →
        (confirm_publish state scheduled).finalState ∈ STATE_TRANSITIONS state)
    ∧ (∀ (state : BatchState) (posts : List Bool),
        (_maybe_transition_batch_to_prompts_built state posts).gateCalled = false)
    ∧ (∀ (state : BatchState) (posts : List String),
        (_check_and_transition_batch_to_qa state posts).gateCalled = false)
    ∧ (∀ (state : BatchState) (scheduled : List Bool),
        (confirm_publish state scheduled).gateCalled = false) := by
  refine ⟨?_, ?_, ?_, ?_, ?_, ?_, ?_⟩
  · intro c t tr h
    unfold update_batch_state at h
    unfold validate_state_transition at h
    by_cases hm : t ∈ STATE_TRANSITIONS c
    · rw [if_pos hm] at h
      cases h
      exact ⟨rfl, hm⟩
    · rw [if_neg hm] at h
      cases h
  · intro state posts
    cases state <;>
      simp only [_maybe_transition_batch_to_prompts_built] <;>
      (try split_ifs) <;> simp_all [STATE_TRANSITIONS]
  · intro state posts
    cases state <;>
      simp only [_check_and_transition_batch_to_qa] <;>
      (try split_ifs) <;> simp_all [STATE_TRANSITIONS]
  · intro state scheduled
    cases state <;>
      simp only [confirm_publish] <;>
      (try split_ifs) <;> simp_all [STATE_TRANSITIONS]
  · intro state posts
    unfold _maybe_transition_batch_to_prompts_built
    split_ifs <;> rfl
  · intro state posts
    unfold _check_and_transition_batch_to_qa
    split_ifs <;> rfl
  · intro state scheduled
    unfold confirm_publish
    split_ifs <;> rfl

/-- Witness for C2 (amended): the gated path (`S1_SETUP → S2_SEEDED`) and
all three direct-write paths at concrete inputs where the write fires. -/
theorem C2_state_writes_amended_witness :
    (update_batch_state BatchState.S1_SETUP BatchState.S2_SEEDED =
        Except.ok ⟨BatchState.S2_SEEDED, true, true⟩ ∧
      StateWriteTrace.gateCalled ⟨BatchState.S2_SEEDED, true, true⟩ = true ∧
      BatchState.S2_SEEDED ∈ STATE_TRANSITIONS BatchState.S1_SETUP) ∧
    ((_maybe_transition_batch_to_prompts_built BatchState.S4_SCRIPTED
        [true, true]).wroteState = true ∧
      (_maybe_transition_batch_to_prompts_built BatchState.S4_SCRIPTED
        [true, true]).finalState ∈ STATE_TRANSITIONS BatchState.S4_SCRIPTED) ∧
    ((_check_and_transition_batch_to_qa BatchState.S5_PROMPTS_BUILT
        ["completed", "completed"]).wroteState = true ∧
      (_check_and_transition_batch_to_qa BatchState.S5_PROMPTS_BUILT
        ["completed", "completed"]).finalState ∈
        STATE_TRANSITIONS BatchState.S5_PROMPTS_BUILT) ∧
    ((confirm_publish BatchState.S7_PUBLISH_PLAN [true]).wroteState = true ∧
      (confirm_publish BatchState.S7_PUBLISH_PLAN [true]).finalState ∈
        STATE_TRANSITIONS BatchState.S7_PUBLISH_PLAN) :=
  ⟨⟨by decide,
      (C2_state_writes_amended.1 BatchState.S1_SETUP BatchState.S2_SEEDED
          ⟨BatchState.S2_SEEDED, true, true⟩ (by decide)).1,
      (C2_state_writes_amended.1 BatchState.S1_SETUP BatchState.S2_SEEDED
          ⟨BatchState.S2_SEEDED, true, true⟩ (by decide)).2⟩,
    ⟨by decide, C2_state_writes_amended.2.1 BatchState.S4_SCRIPTED [true, true]
      (by decide)⟩,
    ⟨by decide, C2_state_writes_amended.2.2.1 BatchState.S5_PROMPTS_BUILT
      ["completed", "completed"] (by decide)⟩,
    ⟨by decide, C2_state_writes_amended.2.2.2.1 BatchState.S7_PUBLISH_PLAN [true]
      (by decide)⟩⟩

/-! ## app/features/topics/handlers.py — discover_topics_endpoint

The LLM generation, JSON parsing, deduplication and per-topic processing
behind one candidate are abstracted into a per-candidate outcome: for a
post type and attempt number, the environment yields the list of
candidates that survived deduplication, `true` when the inner try
(dialog scripts, seed extraction, registry update, post insert) created a
post, `false` when its `except` caught an error and the loop continued.
What is embedded faithfully is the control flow the claim is about: the
attempt budget, the count cap, the all-or-nothing `ValidationError`, and
the state transition. -/

/-- Per-(post type, attempt) candidate outcomes. -/
abbrev CandidateOutcomes := String → Nat → List Bool

/-- The `while created_for_type < count and generation_attempts < 4` loop
for one post type: each attempt processes its surviving candidates in
order, stopping once `count` is reached (hence the `min` cap); the fuel
starts at `max_generation_attempts = 4`. -/
def discover_loop (outcomes : Nat → List Bool) (count : Nat) :
    Nat → Nat → Nat → Nat
  | 0, _, created => created
  | fuel + 1, attempt, created =>
    if created < count then
      discover_loop outcomes count fuel (attempt + 1)
        (min count (created + (outcomes attempt).countP (fun b => b)))
    else created

/-- Posts created for one post type after the retry budget. -/
def created_for_type (outcomes : Nat → List Bool) (count : Nat) : Nat :=
  discover_loop outcomes count 4 0 0

/-- The per-type loop of `discover_topics_endpoint` over the requested
post-type counts: types with count 0 are skipped; a type still short
after its retry budget raises `ValidationError`; otherwise the created
posts accumulate. -/
def discover_posts (outcomes : CandidateOutcomes) :
    List (String × Nat) → Except ValidationError Nat
  | [] => Except.ok 0
  | (post_type, count) :: rest =>
    if count = 0 then discover_posts outcomes rest
    else
      if created_for_type (outcomes post_type) count < count then
        Except.error ⟨"Unable to generate required posts for post type"⟩
      else
        match discover_posts outcomes rest with
        | Except.error e => Except.error e
        | Except.ok n => Except.ok (created_for_type (outcomes post_type) count + n)

/-- The batch row as topic discovery reads it. -/
structure BatchRow where
  id : String
  brand : String
  state : BatchState
  post_type_counts : List (String × Nat)
deriving DecidableEq, Repr

/-- Discovery errors: `ValidationError` from the discovery logic, or a
`StateTransitionError` escaping `update_batch_state`. -/
inductive DiscoverError where
  | validation_error (msg : String)
  | state_transition_error (e : StateTransitionError)
deriving DecidableEq, Repr

/-- `discover_topics_endpoint`: require `S1_SETUP`, run the per-type
loops, fail whole when any type is short or nothing was created, and only
then advance the batch to `S2_SEEDED` through `update_batch_state`.
Returns the resulting batch state next to the outcome. -/
def discover_topics_endpoint (batch : BatchRow) (outcomes : CandidateOutcomes) :
    BatchState × Except DiscoverError Nat :=
  if batch.state ≠ BatchState.S1_SETUP then
    (batch.state,
      Except.error
        (DiscoverError.validation_error
          "Batch must be in S1_SETUP state for topic discovery"))
  else
    match discover_posts outcomes batch.post_type_counts with
    | Except.error e => (batch.state, Except.error (DiscoverError.validation_error e.message))
    | Except.ok n =>
      if n = 0 then
        (batch.state,
          Except.error (DiscoverError.validation_error "No posts were successfully created"))
      else
        match update_batch_state batch.state BatchState.S2_SEEDED with
        | Except.error e => (batch.state, Except.error (DiscoverError.state_transition_error e))
        | Except.ok tr => (tr.finalState, Except.ok n)

theorem discover_loop_le (outcomes : Nat → List Bool) (count : Nat) :
    ∀ fuel attempt created, created ≤ count →
      discover_loop outcomes count fuel attempt created ≤ count := by
  intro fuel
  induction fuel with
  | zero => intro attempt created h; exact h
  | succ f ih =>
    intro attempt created h
    simp only [discover_loop]
    split_ifs with hc
    · exact ih _ _ (Nat.min_le_left _ _)
    · exact h

theorem created_for_type_le (outcomes : Nat → List Bool) (count : Nat) :
    created_for_type outcomes count ≤ count :=
  discover_loop_le outcomes count 4 0 0 (Nat.zero_le _)

/-! ## Theorems for claim C4 -/

/-- C4: for a batch in `S1_SETUP` with counts `{value: 2, lifestyle: 1,
product: 0}`, a successful discovery creates exactly 3 posts and moves
the batch to `S2_SEEDED`; every failure leaves the batch in `S1_SETUP`;
and whenever a post type is still short after its retry budget the whole
operation fails with `ValidationError` (no partial state transition). -/
theorem C4_discovery_all_or_nothing :
    ∀ (batch : BatchRow) (outcomes : CandidateOutcomes),
      batch.state = BatchState.S1_SETUP →
      batch.post_type_counts = [("value", 2), ("lifestyle", 1), ("product", 0)] →
      (∀ n st, discover_topics_endpoint batch outcomes = (st, Except.ok n) →
          n = 3 ∧ st = BatchState.S2_SEEDED)
      ∧ (∀ e st, discover_topics_endpoint batch outcomes = (st, Except.error e) →
          st = BatchState.S1_SETUP)
      ∧ (created_for_type (outcomes "value") 2 < 2 ∨
          created_for_type (outcomes "lifestyle") 1 < 1 →
          discover_topics_endpoint batch outcomes =
            (BatchState.S1_SETUP,
              Except.error
                (DiscoverError.validation_error
                  "Unable to generate required posts for post type"))) := by
  intro batch outcomes hstate hcounts
  have hb1 := created_for_type_le (outcomes "value") 2
  have hb2 := created_for_type_le (outcomes "lifestyle") 1
  by_cases h1 : created_for_type (outcomes "value") 2 < 2
  · have hdp : discover_posts outcomes [("value", 2), ("lifestyle", 1), ("product", 0)] =
        Except.error ⟨"Unable to generate required posts for post type"⟩ := by
      simp [discover_posts, h1]
    have hend : discover_topics_endpoint batch outcomes =
        (BatchState.S1_SETUP,
          Except.error
            (DiscoverError.validation_error
              "Unable to generate required posts for post type")) := by
      simp [discover_topics_endpoint, hstate, hcounts, hdp]
    refine ⟨?_, ?_, fun _ => hend⟩
    · intro n st h
      rw [hend] at h
      simp [Prod.ext_iff] at h
    · intro e st h
      rw [hend] at h
      simp [Prod.ext_iff] at h
      exact h.1.symm
  · have he1 : created_for_type (outcomes "value") 2 = 2 :=
      Nat.le_antisymm hb1 (Nat.not_lt.mp h1)
    by_cases h2 : created_for_type (outcomes "lifestyle") 1 < 1
    · have hdp : discover_posts outcomes [("value", 2), ("lifestyle", 1), ("product", 0)] =
          Except.error ⟨"Unable to generate required posts for post type"⟩ := by
        simp [discover_posts, he1, h2]
      have hend : discover_topics_endpoint batch outcomes =
          (BatchState.S1_SETUP,
            Except.error
              (DiscoverError.validation_error
                "Unable to generate required posts for post type")) := by
        simp [discover_topics_endpoint, hstate, hcounts, hdp]
      refine ⟨?_, ?_, fun _ => hend⟩
      · intro n st h
        rw [hend] at h
        simp [Prod.ext_iff] at h
      · intro e st h
        rw [hend] at h
        simp [Prod.ext_iff] at h
        exact h.1.symm
    · have he2 : created_for_type (outcomes "lifestyle") 1 = 1 :=
        Nat.le_antisymm hb2 (Nat.not_lt.mp h2)
      have hdp : discover_posts outcomes [("value", 2), ("lifestyle", 1), ("product", 0)] =
          Except.ok 3 := by
        simp [discover_posts, he1, he2]
      have hend : discover_topics_endpoint batch outcomes =
          (BatchState.S2_SEEDED, Except.ok 3) := by
        simp [discover_topics_endpoint, hstate, hcounts, hdp, update_batch_state,
          validate_state_transition, STATE_TRANSITIONS]
      refine ⟨?_, ?_, ?_⟩
      · intro n st h
        rw [hend] at h
        simp [Prod.ext_iff] at h
        exact ⟨h.2.symm, h.1.symm⟩
      · intro e st h
        rw [hend] at h
        simp [Prod.ext_iff] at h
      · intro hshort
        rcases hshort with h | h <;> omega

/-- Witness for C4: with an environment producing no valid candidates the
endpoint fails with the `ValidationError` and the batch stays `S1_SETUP`;
with an environment producing two immediately valid candidates per
attempt the endpoint yields exactly 3 posts and `S2_SEEDED` (the
success-shape conclusion instantiated on the computed run). -/
theorem C4_discovery_all_or_nothing_witness :
    (BatchRow.state ⟨"b1", "acme", BatchState.S1_SETUP,
        [("value", 2), ("lifestyle", 1), ("product", 0)]⟩ = BatchState.S1_SETUP) ∧
    created_for_type ((fun _ _ => ([] : List Bool)) "value") 2 < 2 ∧
    discover_topics_endpoint
        ⟨"b1", "acme", BatchState.S1_SETUP,
          [("value", 2), ("lifestyle", 1), ("product", 0)]⟩ (fun _ _ => []) =
      (BatchState.S1_SETUP,
        Except.error
          (DiscoverError.validation_error
            "Unable to generate required posts for post type")) ∧
    discover_topics_endpoint
        ⟨"b1", "acme", BatchState.S1_SETUP,
          [("value", 2), ("lifestyle", 1), ("product", 0)]⟩
        (fun _ _ => [true, true]) =
      (BatchState.S2_SEEDED, Except.ok 3) ∧
    (3 = 3 ∧ BatchState.S2_SEEDED = BatchState.S2_SEEDED) :=
  ⟨rfl, by decide,
    (C4_discovery_all_or_nothing
      ⟨"b1", "acme", BatchState.S1_SETUP,
        [("value", 2), ("lifestyle", 1), ("product", 0)]⟩
      (fun _ _ => []) rfl rfl).2.2 (Or.inl (by decide)),
    by decide,
    (C4_discovery_all_or_nothing
      ⟨"b1", "acme", BatchState.S1_SETUP,
        [("value", 2), ("lifestyle", 1), ("product", 0)]⟩
      (fun _ _ => [true, true]) rfl rfl).1 3
      BatchState.S2_SEEDED (by decide)⟩

end FlowForge
